import Mathlib

/-!
Shallow embedding of the maplibre-tile-spec JS benchmark harness
(`src/js/bench/decode.ts`) and the feature-view class (`Feature` with
`loadGeometry` and `toGeoJSON`).

Modelling conventions:
- JS strings are Lean `String`; JS `Array.prototype.sort()` on string keys
  (code-unit order, ASCII here) is `sortStrings`; `String.prototype.split`
  on a one-character separator is `jsSplit`; `JSON.stringify` of an array
  of plain key strings is `jsonList`.
- The two codec decoders (`MltDecoder.decodeMlTile`, `new VectorTile(...)`)
  are external collaborators; `validate` and the benchmark loops receive the
  decoded tile views (`MltTile`, `MvtTile`) as data.
- `console.error` / `console.log` / `console.assert` output is collected as a
  list of printed lines.  Node `console.assert` with a false condition prints
  an `Assertion failed: ...` line and CONTINUES; it does not throw or exit.
- `process.exit(1)` and thrown `TypeError`s are modelled by the `JsAbort`
  error variants of each checking function.
-/

/-- Lexicographic order on character lists, matching the code-unit comparison
JS uses when `Array.prototype.sort()` is called without a comparator on
(ASCII) strings. -/
def lexLt : List Char → List Char → Bool
  | [], [] => false
  | [], _ :: _ => true
  | _ :: _, [] => false
  | a :: as, b :: bs => if a < b then true else if b < a then false else lexLt as bs

/-- Code-unit comparison of two strings. -/
def strLt (a b : String) : Bool := lexLt a.toList b.toList

/-- Insert a string into an already sorted list (ascending `strLt`). -/
def insertSorted (s : String) : List String → List String
  | [] => [s]
  | t :: ts => if strLt t s then t :: insertSorted s ts else s :: t :: ts

/-- JS `array.sort()` for arrays of (ASCII) strings: sort ascending by
code-unit order.  The key arrays sorted by the harness are `Object.keys`
results, so they contain no duplicates and stability is irrelevant. -/
def sortStrings : List String → List String
  | [] => []
  | s :: ss => insertSorted s (sortStrings ss)

/-- Split a character list at every occurrence of `sep`, keeping empty
segments, as JS `String.prototype.split` does. -/
def splitCharList (sep : Char) : List Char → List (List Char)
  | [] => [[]]
  | c :: cs =>
      if c == sep then [] :: splitCharList sep cs
      else match splitCharList sep cs with
        | [] => [[c]]
        | r :: rs => (c :: r) :: rs

/-- JS `s.split(sep)` for a one-character separator. -/
def jsSplit (s : String) (sep : Char) : List String :=
  (splitCharList sep s.toList).map (fun cs => String.mk cs)

/-- True when `pat` occurs as a contiguous prefix of `cs`. -/
def hasPrefixCL : List Char → List Char → Bool
  | [], _ => true
  | _ :: _, [] => false
  | p :: ps, c :: cs => p == c && hasPrefixCL ps cs

/-- True when `pat` occurs contiguously anywhere in `cs`. -/
def containsCL (pat : List Char) : List Char → Bool
  | [] => hasPrefixCL pat []
  | c :: cs => hasPrefixCL pat (c :: cs) || containsCL pat cs

/-- True when the string `pat` occurs as a substring of `s`. -/
def containsSubstr (s pat : String) : Bool := containsCL pat.toList s.toList

/-- Quote a key string as `JSON.stringify` renders it (the property keys
compared by the harness contain no characters needing escapes). -/
def jsonQuote (s : String) : String := "\"" ++ s ++ "\""

/-- JSON serialization of an array of plain key strings, as produced by
`JSON.stringify(keys)` in `validate`. -/
def jsonList (l : List String) : String :=
  "[" ++ String.intercalate "," (l.map jsonQuote) ++ "]"

/-- Value of a JS numeric expression appearing in the tile-name parser:
a finite number, `NaN` (from `Number` applied to a non-numeric string), or
`undefined` (from indexing past the end of the split array). -/
inductive JsNum where
  | num (n : Nat)
  | nan
  | undefVal
deriving DecidableEq, Repr

/-- Accumulator-style decimal parse of a digit list. -/
def digitsToNat : List Char → Nat → Nat
  | [], acc => acc
  | c :: cs, acc => digitsToNat cs (acc * 10 + (c.toNat - 48))

/-- JS `Number(s)` restricted to the strings the tile-name parser can feed
it: the empty string converts to `0`, a digit string to its value, and
anything else to `NaN`. -/
def jsNumber (s : String) : JsNum :=
  if s.toList.isEmpty then .num 0
  else if s.toList.all Char.isDigit then .num (digitsToNat s.toList 0)
  else .nan

/-- JS `array[i]`: the element when in bounds, `undefined` otherwise. -/
def jsIdx (l : List JsNum) (i : Nat) : JsNum := (l.get? i).getD .undefVal

/-- Outcome of the coordinate-parsing part of `load`: either the `(z, x, y)`
triple it proceeds with, or a thrown `TypeError`. -/
inductive LoadOutcome where
  | ok (z x y : JsNum)
  | thrown (msg : String)
deriving DecidableEq, Repr

/-- The tile-coordinate parsing performed by `load` in `decode.ts`:
`tile.split('/')[1].split('-').map(Number)` destructured as
`z = uri[0], x = uri[1], y = uri[2]`.  When the identifier has no `/`,
`tile.split('/')[1]` is `undefined` and the subsequent `.split` call throws
a `TypeError`.  The three `readFileSync` calls and
`TileSetMetadata.fromBinary` are external collaborators and not part of the
parsing behaviour modelled here. -/
def load (tile : String) : LoadOutcome :=
  match (jsSplit tile '/').get? 1 with
  | none => .thrown "TypeError: Cannot read properties of undefined (reading split)"
  | some seg =>
      let uri := (jsSplit seg '-').map jsNumber
      .ok (jsIdx uri 0) (jsIdx uri 1) (jsIdx uri 2)

/-- Dynamically-typed property value (tagged union, per the property model:
string, number, boolean or null).  Validation compares key sets only. -/
inductive PropValue where
  | str (s : String)
  | num (n : Int)
  | boolVal (b : Bool)
  | nullVal
deriving DecidableEq, Repr

/-- A tile-local coordinate pair. -/
structure Coord where
  x : Int
  y : Int
deriving DecidableEq, Repr

/-- Modelled from the spec: the shared tile-to-geographic projection function
(module `Projection`, whose source is not under `src/`).  The spec describes
it as an inverse Web-Mercator tiling transform parameterized by
zoom/tile-column/tile-row; its floating-point arithmetic is kept symbolic:
a projected coordinate records the tile-local pair together with the
`(x, y, z)` parameters it was projected at. -/
inductive GeoCoord where
  | projected (x y z : Int) (c : Coord)
deriving DecidableEq, Repr

/-- Coordinate payload of a GeoJSON geometry: a single position (for the
`"Point"` fallback in `Feature.toGeoJSON`) or arbitrarily nested arrays (for
geometries produced by a self-decoding geometry object). -/
inductive GeoCoords where
  | pos (p : GeoCoord)
  | arr (cs : List GeoCoords)

/-- A GeoJSON geometry object: a `type` tag and coordinates. -/
structure GeoJSONGeometry where
  type : String
  coordinates : GeoCoords

/-- A GeoJSON feature object as returned by `toGeoJSON`. -/
structure GeoJSONFeature where
  type : String
  id : Int
  geometry : GeoJSONGeometry
  properties : List (String × PropValue)

/-- Modelled from the spec: `project(x, y, z, coords)` from the missing
`Projection` module maps each tile-local coordinate through the shared
tile-to-geographic transform at `(x, y, z)`; represented symbolically. -/
def project (x y z : Int) (coords : List Coord) : List GeoCoord :=
  coords.map (GeoCoord.projected x y z)

/-- Runtime numeric value of `Feature.id` (TS erases types, so a plain
number or a bigint may arrive); `Number(...)` coerces either to a plain
number. -/
inductive JSNumeric where
  | num (n : Int)
  | bigint (n : Int)
deriving DecidableEq, Repr

/-- JS `Number(v)` on a numeric value: the identity on plain numbers and the
numeric value of a bigint. -/
def jsToNumber : JSNumeric → Int
  | .num n => n
  | .bigint n => n

/-- The `this.geometry` field of a `Feature`.  The class dispatches on
capabilities: `typeof this.geometry.loadGeometry === 'function'` and
`typeof this.geometry.toGeoJSON === 'function'` are checked independently.
A present capability is modelled by the value the method call returns
(`loadGeometryCap` for `this.geometry.loadGeometry()`, `toGeoJSONCap` for
`this.geometry.toGeoJSON(x, y, z)`); `asCoord` is the value of
`this.geometry` itself viewed as the single tile-local coordinate pair,
which is what the fallback paths wrap and project. -/
structure GeometryObj where
  loadGeometryCap : Option (List (List Coord))
  toGeoJSONCap : Option (Int → Int → Int → GeoJSONGeometry)
  asCoord : Coord

/-- The `Feature` class: id, geometry source and property mapping. -/
structure Feature where
  id : JSNumeric
  geometry : GeometryObj
  properties : List (String × PropValue)

/-- `Feature.loadGeometry`: delegate to the geometry object when it exposes
a `loadGeometry` function, otherwise wrap the single coordinate pair as a
one-ring, one-point sequence `[[this.geometry]]`. -/
def Feature.loadGeometry (f : Feature) : List (List Coord) :=
  match f.geometry.loadGeometryCap with
  | some rings => rings
  | none => [[f.geometry.asCoord]]

/-- `Feature.toGeoJSON(x, y, z)`: delegate the geometry to the object when it
exposes a `toGeoJSON` function; otherwise project the single coordinate pair
through `project(x, y, z, [this.geometry])` and wrap `projected[0]` as a
`"Point"`.  The result is a `Feature`-typed object with `Number(this.id)`
and the raw properties mapping.  (`project` of a one-element list is a
one-element list, so the `headD` default is unreachable.) -/
def Feature.toGeoJSON (f : Feature) (x y z : Int) : GeoJSONFeature :=
  let geometry :=
    match f.geometry.toGeoJSONCap with
    | some fn => fn x y z
    | none =>
        let projected := project x y z [f.geometry.asCoord]
        { type := "Point",
          coordinates :=
            GeoCoords.pos (projected.headD (GeoCoord.projected x y z f.geometry.asCoord)) }
  { type := "Feature",
    id := jsToNumber f.id,
    geometry := geometry,
    properties := f.properties }

/-- A feature of the external MVT (`@mapbox/vector-tile`) decode.  `validate`
uses only its `properties` mapping and its `toGeoJSON(x, y, z)` result. -/
structure MvtFeature where
  properties : List (String × PropValue)
  toGeoJSONFn : Int → Int → Int → GeoJSONFeature

/-- A layer of the MLT decode: `length` is `features.length` and
`feature(i)` is `features[i]`. -/
structure MltLayer where
  features : List Feature

/-- A layer of the MVT decode; `feature(i)` throws when `i` is out of
bounds. -/
structure MvtLayer where
  features : List MvtFeature

/-- The MLT decoded tile view: an insertion-ordered mapping from layer name
to layer (`decoded.layers`). -/
structure MltTile where
  layers : List (String × MltLayer)

/-- The MVT decoded tile view. -/
structure MvtTile where
  layers : List (String × MvtLayer)

/-- The input record consumed by `validate`: the tile identifier, the parsed
tile coordinates and the two decoded views (decoding itself is the external
codec collaborators `MltDecoder.decodeMlTile` and `new VectorTile(...)`,
which `validate` invokes first thing; their results are taken as data
here). -/
structure VInput where
  tile : String
  x : Int
  y : Int
  z : Int
  decoded : MltTile
  mvtDecoded : MvtTile

/-- An abortive control-flow event inside the harness: `process.exit(code)`
after having printed `lines`, or a thrown `TypeError`-style crash. -/
inductive JsAbort where
  | exit (code : Nat) (lines : List String)
  | crash (lines : List String)
deriving DecidableEq, Repr

/-- A checking step either completes normally, having printed `lines`, or
aborts. -/
abbrev CheckRun := Except JsAbort (List String)

/-- Prepend already-printed lines to the output of a later step. -/
def prependLines (ls : List String) : CheckRun → CheckRun
  | .ok ls₂ => .ok (ls ++ ls₂)
  | .error (.exit c L) => .error (.exit c (ls ++ L))
  | .error (.crash L) => .error (.crash (ls ++ L))

/-- `Object.keys(props).sort()`: the sorted key set of a property mapping. -/
def sortedKeys (props : List (String × PropValue)) : List String :=
  sortStrings (props.map Prod.fst)

/-- The `id` carve-out of `validate` (workaround for issue 181): if
`mvtFeatureKeys.indexOf('id') !== -1` then `splice` removes the element at
that first index.  `List.erase` removes exactly the first occurrence. -/
def spliceOutId (keys : List String) : List String :=
  if keys.contains "id" then keys.erase "id" else keys

/-- The body of the per-feature loop of `validate` for one indexed feature
pair: sort both key sets, apply the `id` carve-out to the MVT side,
`console.assert` the lengths (printing but continuing on failure), compare
the `JSON.stringify` serializations and `process.exit(1)` with diagnostics
when they differ, and otherwise `console.assert` that the GeoJSON geometry
type tags at `(x, y, z)` agree (again printing but continuing on
failure). -/
def checkPair (tile : String) (x y z : Int) (i : Nat) (f : Feature) (g : MvtFeature) :
    CheckRun :=
  let featureKeys := sortedKeys f.properties
  let mvtFeatureKeys := spliceOutId (sortedKeys g.properties)
  let lenAssert :=
    if featureKeys.length == mvtFeatureKeys.length then []
    else ["Assertion failed: Feature keys mismatch for " ++ tile]
  let featureKeysStr := jsonList featureKeys
  let mvtFeatureKeysStr := jsonList mvtFeatureKeys
  if featureKeysStr == mvtFeatureKeysStr then
    let json := f.toGeoJSON x y z
    let mvtJson := g.toGeoJSONFn x y z
    let geomAssert :=
      if json.geometry.type == mvtJson.geometry.type then []
      else ["Assertion failed: Geometry type mismatch for " ++ tile ++ " " ++ toString i]
    .ok (lenAssert ++ geomAssert)
  else
    .error (.exit 1 (lenAssert ++
      ["Validation failed for " ++ tile ++ " " ++ toString i,
       featureKeysStr, "  vs", mvtFeatureKeysStr]))

/-- The per-feature loop of `validate`: `for (let i = 0; i < layer.length;
i++)`, pairing `layer.feature(i)` with `mvtLayer.feature(i)`.  When the MVT
layer is `undefined` (name absent) the first `mvtLayer.feature(i)` call
throws; when the MVT layer has fewer features, `feature(i)` throws its
out-of-bounds error.  Features of the MVT layer beyond `layer.length` are
never accessed. -/
def checkFeatures (tile : String) (x y z : Int) :
    Nat → List Feature → Option (List MvtFeature) → CheckRun
  | _, [], _ => .ok []
  | _, _ :: _, none => .error (.crash [])
  | _, _ :: _, some [] => .error (.crash [])
  | i, f :: fs, some (g :: gs) =>
      match checkPair tile x y z i f g with
      | .error e => .error e
      | .ok ls => prependLines ls (checkFeatures tile x y z (i + 1) fs (some gs))

/-- The per-layer loop of `validate` over the sorted MLT layer names, looking
the MVT layer up by name and incrementing `count` once per completed layer
iteration. -/
def checkLayers (tile : String) (x y z : Int)
    (mltLayers : List (String × MltLayer)) (mvtLayers : List (String × MvtLayer))
    (count : Nat) : List String → Except JsAbort (List String × Nat)
  | [] => .ok ([], count)
  | name :: rest =>
      match List.lookup name mltLayers with
      | none => .error (.crash [])
      | some layer =>
          match checkFeatures tile x y z 0 layer.features
              ((List.lookup name mvtLayers).map MvtLayer.features) with
          | .error e => .error e
          | .ok ls =>
              match checkLayers tile x y z mltLayers mvtLayers (count + 1) rest with
              | .ok (ls₂, c₂) => .ok (ls ++ ls₂, c₂)
              | .error (.exit c L) => .error (.exit c (ls ++ L))
              | .error (.crash L) => .error (.crash (ls ++ L))

/-- Overall outcome of one `validate` call. -/
inductive VOutcome where
  | resolved
  | exited (code : Nat)
  | crashed
deriving DecidableEq, Repr

/-- Printed lines plus outcome of one `validate` call. -/
structure VResult where
  lines : List String
  outcome : VOutcome
deriving DecidableEq, Repr

/-- The sorted layer-name list `validate` iterates over:
`Object.keys(decoded.layers).sort()` of the MLT decode. -/
def validateLayerNames (t : MltTile) : List String :=
  sortStrings (t.layers.map Prod.fst)

/-- `validate` from `decode.ts`: iterate the sorted MLT layer names, check
every indexed feature pair, and finally `console.assert(count > 0, ...)`,
which prints (but does not abort) when no layer was processed; the promise
then resolves. -/
def validate (input : VInput) : VResult :=
  let layerNames := validateLayerNames input.decoded
  match checkLayers input.tile input.x input.y input.z
      input.decoded.layers input.mvtDecoded.layers 0 layerNames with
  | .error (.exit c L) => ⟨L, .exited c⟩
  | .error (.crash L) => ⟨L, .crashed⟩
  | .ok (ls, count) =>
      if count > 0 then ⟨ls, .resolved⟩
      else ⟨ls ++ ["Assertion failed: Validation count mismatch for " ++ input.tile],
            .resolved⟩

/-- Result of `runSuites`: printed lines, the exit code when the process
terminated early, and whether control reached the benchmark loop (the timed
suites themselves are external timing machinery). -/
structure SuitesResult where
  lines : List String
  exitCode : Option Nat
  benchmarksReached : Bool
deriving DecidableEq, Repr

/-- The validation phase of `runSuites`: validate each input in order,
stopping the process at the first exit or crash; only afterwards does the
benchmark loop start. -/
def runSuitesValidation : List VInput → List String → SuitesResult
  | [], acc => ⟨acc, none, true⟩
  | input :: rest, acc =>
      let r := validate input
      let acc₂ := acc ++ ("Validating result for " ++ input.tile) :: r.lines
      match r.outcome with
      | .resolved => runSuitesValidation rest (acc₂ ++ [" ✔ passed for " ++ input.tile])
      | .exited c => ⟨acc₂, some c, false⟩
      | .crashed => ⟨acc₂, none, false⟩

/-- `runSuites` from `decode.ts`: when `--validate` was passed, run the
validation phase first; the benchmark suites run only if it completes. -/
def runSuites (willValidate : Bool) (inputs : List VInput) : SuitesResult :=
  if willValidate then runSuitesValidation inputs [] else ⟨[], none, true⟩

/-- The fixed inner-loop repetition count of every benchmark scenario. -/
def IN_LOOP_ITERATIONS : Nat := 5

/-- The feature count accumulated by one decode-and-traverse pass of a
benchmark scenario: for each sorted layer name, the inner `for` loop visits
every feature of `decoded.layers[layerName]` (invoking the measured
operation and discarding its result), incrementing `count` once per
feature.  A lookup of an own key always succeeds; the `getD 0` branch is
unreachable. -/
def passCount (decoded : MltTile) : Nat :=
  (validateLayerNames decoded).foldr
    (fun name acc =>
      (((List.lookup name decoded.layers).map (fun L => L.features.length)).getD 0) + acc)
    0

/-- Outcome of a benchmark scenario in the model: completion (with the final
recorded `opts`) or `process.exit(1)` after printing the given line. -/
inductive BenchResult where
  | completed (opts : Option Nat)
  | exited (code : Nat) (line : String)
deriving DecidableEq, Repr

/-- The count-invariant logic of each scenario closure in `decode.ts`:
`opts` starts as `null`, is set to the count of the first pass, and every
subsequent pass compares its count against it (`count !== opts || count <
1`), printing `Feature count mismatch for <tile>` and exiting `1` on a
violation.  `opts` is captured by the closure and persists across all
benchmark samples, so the list argument is the flattened sequence of
per-pass counts across all inner-loop iterations of all outer
repetitions. -/
def benchCheckCounts (tile : String) : Option Nat → List Nat → BenchResult
  | opts, [] => .completed opts
  | none, count :: rest => benchCheckCounts tile (some count) rest
  | some opts, count :: rest =>
      if count ≠ opts ∨ count < 1 then
        .exited 1 ("Feature count mismatch for " ++ tile)
      else benchCheckCounts tile (some opts) rest

/-- One benchmark scenario of `runSuite`: every pass decodes the tile from
scratch and traverses it; `passes` is the list of per-pass decode results
(a deterministic decoder yields identical entries, a faulty or synthetic
one may not).  All four scenario kinds (`--mvt`, `--mlt`, `--mvtjson`,
`--mltjson`) share this count-checking structure verbatim. -/
def runSuite (tile : String) (passes : List MltTile) : BenchResult :=
  benchCheckCounts tile none (passes.map passCount)

/-- A key-set comparison between an indexed feature pair succeeds exactly
when the serialized sorted key sets (after the `id` carve-out on the MVT
side) coincide. -/
def pairKeysAgree (f : Feature) (g : MvtFeature) : Bool :=
  jsonList (sortedKeys f.properties) == jsonList (spliceOutId (sortedKeys g.properties))

/-- Builder for a concrete MLT-side feature whose geometry object exposes
both capabilities and reports the given GeoJSON type tag. -/
def mltFeature (props : List (String × PropValue)) (gtype : String) : Feature :=
  ⟨.num 1, ⟨some [[⟨0, 0⟩]], some (fun _ _ _ => ⟨gtype, GeoCoords.arr []⟩), ⟨0, 0⟩⟩, props⟩

/-- Builder for a concrete MVT-side feature reporting the given GeoJSON type
tag. -/
def mvtFeature (props : List (String × PropValue)) (gtype : String) : MvtFeature :=
  ⟨props, fun _ _ _ => ⟨"Feature", 1, ⟨gtype, GeoCoords.arr []⟩, props⟩⟩

/-- A feature whose geometry object exposes its own decoding capabilities. -/
def selfDecodingFeature : Feature :=
  ⟨.num 3,
   ⟨some [[⟨1, 2⟩, ⟨3, 4⟩]], some (fun _ _ _ => ⟨"LineString", GeoCoords.arr []⟩), ⟨1, 2⟩⟩,
   [("kind", .str "road")]⟩

/-- A feature whose geometry is a bare coordinate pair (no capabilities);
its id arrives as a bigint. -/
def rawPointFeature : Feature := ⟨.bigint 9, ⟨none, none, ⟨5, 6⟩⟩, []⟩

/-- A tile pair whose only feature pair agrees on keys but disagrees on the
GeoJSON geometry type tag. -/
def geomMismatchInput : VInput :=
  ⟨"bing/4-8-5", 8, 5, 4,
   ⟨[("building", ⟨[mltFeature [("name", .str "x")] "Point"]⟩)]⟩,
   ⟨[("building", ⟨[mvtFeature [("name", .str "x")] "Polygon"]⟩)]⟩⟩

/-- MLT layer of the key-mismatch fixture. -/
def keyMismatchMltLayer : MltLayer := ⟨[mltFeature [("a", .num 1)] "Point"]⟩

/-- MVT layer of the key-mismatch fixture. -/
def keyMismatchMvtLayer : MvtLayer := ⟨[mvtFeature [("b", .num 1)] "Point"]⟩

/-- A tile pair whose only feature pair has differing property key sets in
layer `building`. -/
def keyMismatchInput : VInput :=
  ⟨"bing/4-8-5", 8, 5, 4,
   ⟨[("building", keyMismatchMltLayer)]⟩, ⟨[("building", keyMismatchMvtLayer)]⟩⟩

/-- A tile pair both of whose sides carry an `id` property key (plus an
agreeing `name` key). -/
def bothIdInput : VInput :=
  ⟨"t", 0, 0, 0,
   ⟨[("L", ⟨[mltFeature [("id", .num 1), ("name", .str "x")] "Point"]⟩)]⟩,
   ⟨[("L", ⟨[mvtFeature [("id", .num 1), ("name", .str "x")] "Point"]⟩)]⟩⟩

/-- A tile pair where the MVT decode has a layer `b` that the MLT decode
lacks. -/
def mvtExtraLayerInput : VInput :=
  ⟨"t", 0, 0, 0, ⟨[("a", ⟨[]⟩)]⟩, ⟨[("a", ⟨[]⟩), ("b", ⟨[]⟩)]⟩⟩

/-- An MVT layer used to test lookup-by-name iteration. -/
def mvtLayerA : MvtLayer := ⟨[mvtFeature [("p", .num 1)] "Point"]⟩

/-- A second MVT layer used to test lookup-by-name iteration. -/
def mvtLayerB : MvtLayer := ⟨[mvtFeature [("q", .num 2)] "Polygon"]⟩

/-- An MLT tile with two layers matching `mvtLayerA` and `mvtLayerB`. -/
def mltForOrder : MltTile :=
  ⟨[("a", ⟨[mltFeature [("p", .num 1)] "Point"]⟩),
    ("b", ⟨[mltFeature [("q", .num 2)] "Polygon"]⟩)]⟩

/-- Input whose MVT layers are stored in insertion order `a`, `b`. -/
def orderInputOne : VInput := ⟨"t", 0, 0, 0, mltForOrder, ⟨[("a", mvtLayerA), ("b", mvtLayerB)]⟩⟩

/-- Input identical to `orderInputOne` except that the MVT layers are stored
in the reverse insertion order. -/
def orderInputTwo : VInput := ⟨"t", 0, 0, 0, mltForOrder, ⟨[("b", mvtLayerB), ("a", mvtLayerA)]⟩⟩

/-- A one-feature MLT layer matching the first MVT feature below. -/
def agreeingMltLayer : MltLayer := ⟨[mltFeature [("name", .str "x")] "Point"]⟩

/-- An MVT feature agreeing with the MLT feature of `agreeingMltLayer`. -/
def matchingMvtFeature : MvtFeature := mvtFeature [("name", .str "x")] "Point"

/-- An MVT feature that would mismatch if it were ever compared. -/
def extraMvtFeature : MvtFeature := mvtFeature [("zzz", .num 0)] "Polygon"

/-- An MVT layer with strictly more features than `agreeingMltLayer`. -/
def longMvtLayer : MvtLayer := ⟨[matchingMvtFeature, extraMvtFeature]⟩

/-- Input whose MVT layer has strictly more features than the MLT layer. -/
def longMvtInput : VInput := ⟨"t", 0, 0, 0, ⟨[("L", agreeingMltLayer)]⟩, ⟨[("L", longMvtLayer)]⟩⟩

/-- Input identical to `longMvtInput` with the trailing MVT feature
removed. -/
def shortMvtInput : VInput :=
  ⟨"t", 0, 0, 0, ⟨[("L", agreeingMltLayer)]⟩, ⟨[("L", ⟨[matchingMvtFeature]⟩)]⟩⟩

/-- A per-pass decode result with one feature in one layer. -/
def benchPassTileOne : MltTile := ⟨[("layer", ⟨[mltFeature [] "Point"]⟩)]⟩

/-- A per-pass decode result with two features in one layer: a synthetic
decoder returning this on a later pass violates the count invariant. -/
def benchPassTileTwo : MltTile := ⟨[("layer", ⟨[mltFeature [] "Point", mltFeature [] "Point"]⟩)]⟩

/-- With a recorded first-pass count, the count check aborts exactly when
some later pass count differs from it or is below one. -/
theorem benchCheckCounts_spec (tile : String) (c0 : Nat) (rest : List Nat) :
    benchCheckCounts tile (some c0) rest =
        .exited 1 ("Feature count mismatch for " ++ tile) ↔
      ∃ c ∈ rest, c ≠ c0 ∨ c < 1 := by
  induction rest with
  | nil => simp [benchCheckCounts]
  | cons c cs ih =>
      by_cases hv : c ≠ c0 ∨ c < 1
      · simp only [benchCheckCounts, if_pos hv]
        constructor
        · intro _; exact ⟨c, List.mem_cons_self c cs, hv⟩
        · intro _; trivial
      · simp only [benchCheckCounts, if_neg hv]
        rw [ih]
        constructor
        · rintro ⟨d, hd, hviol⟩; exact ⟨d, List.mem_cons_of_mem c hd, hviol⟩
        · rintro ⟨d, hd, hviol⟩
          rcases List.mem_cons.mp hd with h | h
          · subst h; exact absurd hviol hv
          · exact ⟨d, h, hviol⟩

/-- C1: for every benchmark scenario, the feature count of each
decode-and-traverse pass after the first is compared against the count
recorded by the first pass (the `opts` closure variable, persisting across
all inner-loop iterations and outer repetitions), and the scenario
terminates with exit code 1 after printing the feature-count-mismatch
diagnostic naming the tile exactly when some subsequent pass count differs
from the recorded count or is below one. -/
theorem benchmark_count_invariant (tile : String) (passes : List MltTile)
    (c0 : Nat) (rest : List Nat) (h : passes.map passCount = c0 :: rest) :
    runSuite tile passes = .exited 1 ("Feature count mismatch for " ++ tile) ↔
      ∃ c ∈ rest, c ≠ c0 ∨ c < 1 := by
  unfold runSuite
  rw [h]
  rw [show benchCheckCounts tile none (c0 :: rest) =
        benchCheckCounts tile (some c0) rest from rfl]
  exact benchCheckCounts_spec tile c0 rest

/-- Witness for C1: a synthetic decoder yielding one feature on the first
pass and two on the second makes the scenario abort with exit code 1 and
the diagnostic naming the tile. -/
theorem benchmark_count_invariant_witness :
    runSuite "bing/4-8-5" [benchPassTileOne, benchPassTileTwo] =
      .exited 1 ("Feature count mismatch for " ++ "bing/4-8-5") :=
  (benchmark_count_invariant "bing/4-8-5" [benchPassTileOne, benchPassTileTwo] 1 [2]
      (by decide)).mpr ⟨2, by decide, by decide⟩

/-- C3 (code bug): the processed-layer counter is zero for a tile whose MLT
decode has no layers, but the guarding `assert` is Node `console.assert`,
which only prints `Assertion failed: Validation count mismatch for <tile>`
and continues: the promise resolves, validation is treated as passed, and
the benchmark phase still runs, contradicting the claimed EmptyValidation
failure with non-zero termination. -/
theorem empty_validation_resolves (tile : String) (x y z : Int) (mvt : MvtTile) :
    validate ⟨tile, x, y, z, ⟨[]⟩, mvt⟩ =
      ⟨["Assertion failed: Validation count mismatch for " ++ tile], .resolved⟩ ∧
    (runSuites true [⟨tile, x, y, z, ⟨[]⟩, mvt⟩]).benchmarksReached = true :=
  ⟨rfl, rfl⟩

/-- C2 (code bug): a geometry-type mismatch between the two GeoJSON
projections is guarded by Node `console.assert`, which prints the
diagnostic but neither throws nor exits: validation resolves successfully
and the benchmark phase still runs, contradicting the claimed fail-fast
non-zero termination. -/
theorem geometry_mismatch_does_not_abort :
    validate geomMismatchInput =
      ⟨["Assertion failed: Geometry type mismatch for bing/4-8-5 0"], .resolved⟩ ∧
    (runSuites true [geomMismatchInput]).benchmarksReached = true :=
  ⟨by decide, by decide⟩

/-- C8: `Feature.loadGeometry` returns the verbatim result of the geometry
object, its own loadGeometry capability when that capability exists, and
otherwise wraps the single coordinate pair as a one-ring, one-point
sequence. -/
theorem feature_loadGeometry_dispatch (f : Feature) :
    (∀ rings, f.geometry.loadGeometryCap = some rings → f.loadGeometry = rings) ∧
    (f.geometry.loadGeometryCap = none → f.loadGeometry = [[f.geometry.asCoord]]) := by
  refine ⟨fun rings h => ?_, fun h => ?_⟩ <;> simp [Feature.loadGeometry, h]

/-- Witness for C8: both dispatch paths at concrete features. -/
theorem feature_loadGeometry_dispatch_witness :
    selfDecodingFeature.loadGeometry = [[⟨1, 2⟩, ⟨3, 4⟩]] ∧
    rawPointFeature.loadGeometry = [[⟨5, 6⟩]] :=
  ⟨(feature_loadGeometry_dispatch selfDecodingFeature).1 _ rfl,
   (feature_loadGeometry_dispatch rawPointFeature).2 rfl⟩

/-- C9: `Feature.toGeoJSON (x, y, z)` returns a `Feature`-typed object whose
id is the feature id coerced to a plain number, whose properties mapping is
unchanged, and whose geometry either delegates to the geometry object, its
own toGeoJSON capability when present, or else is a `Point` whose
coordinates are the single coordinate pair passed through the shared
projection at `(x, y, z)`. -/
theorem feature_toGeoJSON_spec (f : Feature) (x y z : Int) :
    (f.toGeoJSON x y z).type = "Feature" ∧
    (f.toGeoJSON x y z).id = jsToNumber f.id ∧
    (f.toGeoJSON x y z).properties = f.properties ∧
    (∀ fn, f.geometry.toGeoJSONCap = some fn → (f.toGeoJSON x y z).geometry = fn x y z) ∧
    (f.geometry.toGeoJSONCap = none →
      (f.toGeoJSON x y z).geometry =
        { type := "Point",
          coordinates := GeoCoords.pos
            ((project x y z [f.geometry.asCoord]).headD
              (GeoCoord.projected x y z f.geometry.asCoord)) }) := by
  refine ⟨rfl, rfl, rfl, fun fn h => ?_, fun h => ?_⟩ <;>
    simp [Feature.toGeoJSON, h]

/-- Witness for C9: both geometry paths and the bigint id coercion at
concrete features and coordinates. -/
theorem feature_toGeoJSON_spec_witness :
    (selfDecodingFeature.toGeoJSON 8 5 4).geometry = ⟨"LineString", GeoCoords.arr []⟩ ∧
    (rawPointFeature.toGeoJSON 8 5 4).geometry =
      ⟨"Point", GeoCoords.pos (GeoCoord.projected 8 5 4 ⟨5, 6⟩)⟩ ∧
    (rawPointFeature.toGeoJSON 8 5 4).id = 9 :=
  ⟨(feature_toGeoJSON_spec selfDecodingFeature 8 5 4).2.2.2.1 _ rfl,
   ((feature_toGeoJSON_spec rawPointFeature 8 5 4).2.2.2.2 rfl).trans rfl,
   ((feature_toGeoJSON_spec rawPointFeature 8 5 4).2.1).trans rfl⟩

/-- C7 (amended): `load` splits the trailing `/`-segment on `-` and applies
JS `Number`; missing components come out as `undefined` and non-numeric
components as `NaN`, with no MalformedIdentifier check, and only an
identifier without a `/` separator makes the subsequent `.split` call throw
a `TypeError`. -/
theorem load_split_semantics (t : String) :
    (∀ seg, (jsSplit t '/').get? 1 = some seg →
      load t = .ok (jsIdx ((jsSplit seg '-').map jsNumber) 0)
                  (jsIdx ((jsSplit seg '-').map jsNumber) 1)
                  (jsIdx ((jsSplit seg '-').map jsNumber) 2)) ∧
    ((jsSplit t '/').get? 1 = none →
      load t = .thrown "TypeError: Cannot read properties of undefined (reading split)") := by
  constructor
  · intro seg h; unfold load; rw [h]
  · intro h; unfold load; rw [h]

/-- Witness for C7 (amended): a well-formed identifier parses to its three
coordinates; an identifier with no `/` throws. -/
theorem load_split_semantics_witness :
    load "bing/4-8-5" = .ok (.num 4) (.num 8) (.num 5) ∧
    load "bad" = .thrown "TypeError: Cannot read properties of undefined (reading split)" :=
  ⟨((load_split_semantics "bing/4-8-5").1 "4-8-5" (by decide)).trans (by decide),
   (load_split_semantics "bad").2 (by decide)⟩

/-- Counterexample for C7: an identifier whose trailing segment has fewer
than three components loads without any failure, proceeding with an
`undefined` y coordinate, and one with non-numeric components proceeds with
`NaN` coordinates; neither produces a MalformedIdentifier failure. -/
theorem malformed_identifier_not_rejected :
    load "fixture/1-2" = .ok (.num 1) (.num 2) .undefVal ∧
    load "fixture/a-b-c" = .ok .nan .nan .nan := by
  exact ⟨by decide, by decide⟩

/-- The `id` carve-out is exactly first-occurrence removal. -/
theorem spliceOutId_eq_erase (l : List String) : spliceOutId l = l.erase "id" := by
  unfold spliceOutId
  by_cases h : l.contains "id"
  · rw [if_pos h]
  · rw [if_neg h, List.erase_of_not_mem]
    simpa using h

/-- `checkPair` aborts exactly when the serialized key sets differ. -/
theorem checkPair_error_iff (tile : String) (x y z : Int) (i : Nat)
    (f : Feature) (g : MvtFeature) :
    (∃ e, checkPair tile x y z i f g = .error e) ↔
      jsonList (sortedKeys f.properties) ≠
        jsonList (spliceOutId (sortedKeys g.properties)) := by
  simp only [checkPair]
  by_cases h : (jsonList (sortedKeys f.properties)
      == jsonList (spliceOutId (sortedKeys g.properties))) = true
  · rw [if_pos h]
    rw [beq_iff_eq] at h
    constructor
    · rintro ⟨e, he⟩; exact absurd he (by simp)
    · intro hne; exact absurd h hne
  · rw [if_neg h]
    have hne : jsonList (sortedKeys f.properties) ≠
        jsonList (spliceOutId (sortedKeys g.properties)) := by
      intro heq; exact h (beq_iff_eq.mpr heq)
    exact ⟨fun _ => hne, fun _ => ⟨_, rfl⟩⟩

/-- C6 (amended): the `id` carve-out removes an `id` key from the MVT
(reference) side, its sorted key set whenever `id` is present there,
independently of the MLT side, its keys; the abort condition of the
per-pair check compares the MLT key set against the MVT key set with the
first `id` occurrence removed, regardless of whether the MLT side also has
`id`. -/
theorem id_carveout_unconditional (tile : String) (x y z : Int) (i : Nat)
    (f : Feature) (g : MvtFeature) :
    spliceOutId (sortedKeys g.properties) = (sortedKeys g.properties).erase "id" ∧
    ((∃ e, checkPair tile x y z i f g = .error e) ↔
      jsonList (sortedKeys f.properties) ≠
        jsonList ((sortedKeys g.properties).erase "id")) := by
  refine ⟨spliceOutId_eq_erase _, ?_⟩
  rw [checkPair_error_iff tile x y z i f g, spliceOutId_eq_erase]

/-- Counterexample for C6: both sides carry an `id` key, yet the MVT side,
its key set is still altered by the carve-out, and validation of the tile
exits with code 1 even though the raw key sets of the two sides were
identical (the claim predicts no alteration and a pass). -/
theorem id_carveout_applies_though_both_sides_have_id :
    "id" ∈ sortedKeys (mltFeature [("id", .num 1), ("name", .str "x")] "Point").properties ∧
    "id" ∈ sortedKeys (mvtFeature [("id", .num 1), ("name", .str "x")] "Point").properties ∧
    spliceOutId (sortedKeys (mvtFeature [("id", .num 1), ("name", .str "x")] "Point").properties) ≠
      sortedKeys (mvtFeature [("id", .num 1), ("name", .str "x")] "Point").properties ∧
    (validate bothIdInput).outcome = .exited 1 := by
  exact ⟨by decide, by decide, by decide, by decide⟩

/-- `checkLayers` depends on the MVT side only through name lookup. -/
theorem checkLayers_mvt_lookup_congr (tile : String) (x y z : Int)
    (mlt : List (String × MltLayer)) (mvtA mvtB : List (String × MvtLayer))
    (hm : ∀ name, List.lookup name mvtA = List.lookup name mvtB) :
    ∀ (names : List String) (count : Nat),
      checkLayers tile x y z mlt mvtA count names =
        checkLayers tile x y z mlt mvtB count names := by
  intro names
  induction names with
  | nil => intro count; rfl
  | cons name rest ih =>
      intro count
      simp only [checkLayers]
      rw [hm name]
      simp only [ih]

/-- C5 (amended): the layer-name set the validator iterates over is the
sorted layer-name set of the MLT (Format-A) decode, not of the MVT
(reference) decode, and the MVT side enters only through lookup by name:
two inputs whose MVT views answer every name lookup identically validate
identically. -/
theorem layer_iteration_driven_by_mlt (tile : String) (x y z : Int)
    (decoded : MltTile) (mvt₁ mvt₂ : MvtTile)
    (hm : ∀ name, List.lookup name mvt₁.layers = List.lookup name mvt₂.layers) :
    validateLayerNames decoded = sortStrings (decoded.layers.map Prod.fst) ∧
    validate ⟨tile, x, y, z, decoded, mvt₁⟩ = validate ⟨tile, x, y, z, decoded, mvt₂⟩ := by
  refine ⟨rfl, ?_⟩
  simp only [validate]
  rw [checkLayers_mvt_lookup_congr tile x y z decoded.layers mvt₁.layers mvt₂.layers hm]

/-- Witness for C5 (amended): reordering the MVT layer map leaves the
validation result unchanged. -/
theorem layer_iteration_driven_by_mlt_witness :
    validate orderInputOne = validate orderInputTwo :=
  (layer_iteration_driven_by_mlt "t" 0 0 0 mltForOrder
    ⟨[("a", mvtLayerA), ("b", mvtLayerB)]⟩ ⟨[("b", mvtLayerB), ("a", mvtLayerA)]⟩
    (by
      intro name
      by_cases ha : name = "a"
      · subst ha; rfl
      · by_cases hb : name = "b"
        · subst hb; rfl
        · have ha2 : (name == "a") = false := beq_eq_false_iff_ne.mpr ha
          have hb2 : (name == "b") = false := beq_eq_false_iff_ne.mpr hb
          simp [List.lookup, ha2, hb2])).2

/-- Counterexample for C5: a tile whose MVT decode has an extra layer `b`.
The iterated name set (from the MLT decode) differs from the sorted MVT
layer-name set, and validation resolves without ever examining layer `b`. -/
theorem iterated_names_differ_from_mvt_names :
    validateLayerNames mvtExtraLayerInput.decoded ≠
      sortStrings (mvtExtraLayerInput.mvtDecoded.layers.map Prod.fst) ∧
    (validate mvtExtraLayerInput).outcome = .resolved := by
  exact ⟨by decide, by decide⟩

/-- Counterexample for C4: at a concrete key-set mismatch the printed
diagnostic reports both serialized key sets and names the tile and the
feature index, but no printed line mentions the layer name `building`. -/
theorem key_mismatch_diagnostic_lacks_layer_name :
    validate keyMismatchInput =
      ⟨["Validation failed for bing/4-8-5 0", "[\"a\"]", "  vs", "[\"b\"]"], .exited 1⟩ ∧
    (validate keyMismatchInput).lines.all (fun l => !(containsSubstr l "building")) = true := by
  exact ⟨by decide, by decide⟩

/-- A pair whose serialized key sets agree passes `checkPair` (possibly
printing a non-fatal geometry-type assertion line). -/
theorem checkPair_ok (tile : String) (x y z : Int) (i : Nat)
    (f : Feature) (g : MvtFeature) (h : pairKeysAgree f g = true) :
    checkPair tile x y z i f g = .ok
      ((if (sortedKeys f.properties).length
            == (spliceOutId (sortedKeys g.properties)).length then []
        else ["Assertion failed: Feature keys mismatch for " ++ tile]) ++
       (if (f.toGeoJSON x y z).geometry.type == (g.toGeoJSONFn x y z).geometry.type then []
        else ["Assertion failed: Geometry type mismatch for " ++ tile ++ " " ++ toString i])) := by
  have h2 : (jsonList (sortedKeys f.properties)
      == jsonList (spliceOutId (sortedKeys g.properties))) = true := h
  simp only [checkPair]
  rw [if_pos h2]

/-- A pair whose serialized key sets differ makes `checkPair` exit with
code 1 after printing the index-naming diagnostic and both serialized key
sets. -/
theorem checkPair_mismatch (tile : String) (x y z : Int) (i : Nat)
    (f : Feature) (g : MvtFeature) (h : pairKeysAgree f g = false) :
    checkPair tile x y z i f g = .error (.exit 1
      ((if (sortedKeys f.properties).length
            == (spliceOutId (sortedKeys g.properties)).length then []
        else ["Assertion failed: Feature keys mismatch for " ++ tile]) ++
       ["Validation failed for " ++ tile ++ " " ++ toString i,
        jsonList (sortedKeys f.properties), "  vs",
        jsonList (spliceOutId (sortedKeys g.properties))])) := by
  have h2 : ¬ ((jsonList (sortedKeys f.properties)
      == jsonList (spliceOutId (sortedKeys g.properties))) = true) := by
    intro hc
    rw [show (jsonList (sortedKeys f.properties)
        == jsonList (spliceOutId (sortedKeys g.properties))) = pairKeysAgree f g from rfl] at hc
    rw [h] at hc
    exact Bool.false_ne_true hc
  simp only [checkPair]
  rw [if_neg h2]

/-- Existential packaging of `checkPair_mismatch` with the membership facts
the loop lemmas need. -/
theorem checkPair_mismatch_mem (tile : String) (x y z : Int) (i : Nat)
    (f : Feature) (g : MvtFeature) (h : pairKeysAgree f g = false) :
    ∃ L, checkPair tile x y z i f g = .error (.exit 1 L) ∧
      ("Validation failed for " ++ tile ++ " " ++ toString i) ∈ L ∧
      jsonList (sortedKeys f.properties) ∈ L ∧
      jsonList (spliceOutId (sortedKeys g.properties)) ∈ L :=
  ⟨_, checkPair_mismatch tile x y z i f g h,
    List.mem_append_right _ (by simp),
    List.mem_append_right _ (by simp),
    List.mem_append_right _ (by simp)⟩

/-- The feature loop completes when every indexed pair (within the MLT
length, which the MVT side covers) agrees on key sets. -/
theorem checkFeatures_ok (tile : String) (x y z : Int) :
    ∀ (fs : List Feature) (gs : List MvtFeature) (i : Nat),
      fs.length ≤ gs.length →
      (∀ j (h₁ : j < fs.length) (h₂ : j < gs.length),
        pairKeysAgree (fs.get ⟨j, h₁⟩) (gs.get ⟨j, h₂⟩) = true) →
      ∃ ls, checkFeatures tile x y z i fs (some gs) = .ok ls := by
  intro fs
  induction fs with
  | nil => intro gs i _ _; exact ⟨[], rfl⟩
  | cons f fs ih =>
      intro gs i hlen hag
      cases gs with
      | nil => simp at hlen
      | cons g gs =>
          have h0 : pairKeysAgree f g = true := hag 0 (by simp) (by simp)
          have hls := checkPair_ok tile x y z i f g h0
          obtain ⟨ls₂, hls₂⟩ := ih gs (i + 1) (by simpa using hlen)
            (fun j h₁ h₂ => hag (j + 1) (Nat.succ_lt_succ h₁) (Nat.succ_lt_succ h₂))
          simp only [checkFeatures, hls, hls₂, prependLines]
          exact ⟨_, rfl⟩

/-- When all pairs before index `i` agree and the pair at `i` disagrees,
the feature loop exits with code 1, its printed lines containing the
diagnostic naming index `i0 + i` and both serialized key sets of the
mismatching pair. -/
theorem checkFeatures_mismatch (tile : String) (x y z : Int) :
    ∀ (i : Nat) (fs : List Feature) (gs : List MvtFeature) (i0 : Nat)
      (h₁ : i < fs.length) (h₂ : i < gs.length),
      (∀ j (hj₁ : j < fs.length) (hj₂ : j < gs.length), j < i →
        pairKeysAgree (fs.get ⟨j, hj₁⟩) (gs.get ⟨j, hj₂⟩) = true) →
      pairKeysAgree (fs.get ⟨i, h₁⟩) (gs.get ⟨i, h₂⟩) = false →
      ∃ L, checkFeatures tile x y z i0 fs (some gs) = .error (.exit 1 L) ∧
        ("Validation failed for " ++ tile ++ " " ++ toString (i0 + i)) ∈ L ∧
        jsonList (sortedKeys (fs.get ⟨i, h₁⟩).properties) ∈ L ∧
        jsonList (spliceOutId (sortedKeys (gs.get ⟨i, h₂⟩).properties)) ∈ L := by
  intro i
  induction i with
  | zero =>
      intro fs gs i0 h₁ h₂ hprev hmis
      cases fs with
      | nil => simp at h₁
      | cons f fs =>
          cases gs with
          | nil => simp at h₂
          | cons g gs =>
              obtain ⟨L, hL, hm1, hm2, hm3⟩ := checkPair_mismatch_mem tile x y z i0 f g hmis
              refine ⟨L, ?_, by simpa using hm1, hm2, hm3⟩
              simp only [checkFeatures, hL]
  | succ i ih =>
      intro fs gs i0 h₁ h₂ hprev hmis
      cases fs with
      | nil => simp at h₁
      | cons f fs =>
          cases gs with
          | nil => simp at h₂
          | cons g gs =>
              have h0 : pairKeysAgree f g = true :=
                hprev 0 (by simp) (by simp) (Nat.succ_pos i)
              have hls := checkPair_ok tile x y z i0 f g h0
              obtain ⟨L, hL, hm1, hm2, hm3⟩ := ih fs gs (i0 + 1)
                (Nat.lt_of_succ_lt_succ h₁) (Nat.lt_of_succ_lt_succ h₂)
                (fun j hj₁ hj₂ hji =>
                  hprev (j + 1) (Nat.succ_lt_succ hj₁) (Nat.succ_lt_succ hj₂)
                    (Nat.succ_lt_succ hji))
                hmis
              rw [show i0 + 1 + i = i0 + (i + 1) from by omega] at hm1
              simp only [checkFeatures, hls, prependLines, hL]
              exact ⟨_, rfl, List.mem_append_right _ hm1,
                List.mem_append_right _ hm2, List.mem_append_right _ hm3⟩

/-- When all layers before `name` in the iterated list validate cleanly and
layer `name` has a first key-set mismatch at index `i`, the layer loop
exits with code 1, its printed lines containing the index-naming diagnostic
and both serialized key sets. -/
theorem checkLayers_mismatch (tile : String) (x y z : Int)
    (mlt : List (String × MltLayer)) (mvt : List (String × MvtLayer)) :
    ∀ (pre : List String) (name : String) (post : List String) (count : Nat)
      (L : MltLayer) (M : MvtLayer) (i : Nat)
      (hpre : ∀ n ∈ pre, ∃ Ln Mn, List.lookup n mlt = some Ln ∧
          List.lookup n mvt = some Mn ∧
          Ln.features.length ≤ Mn.features.length ∧
          ∀ j (h₁ : j < Ln.features.length) (h₂ : j < Mn.features.length),
            pairKeysAgree (Ln.features.get ⟨j, h₁⟩) (Mn.features.get ⟨j, h₂⟩) = true)
      (hL : List.lookup name mlt = some L)
      (hM : List.lookup name mvt = some M)
      (h₁ : i < L.features.length) (h₂ : i < M.features.length)
      (hprev : ∀ j (hj₁ : j < L.features.length) (hj₂ : j < M.features.length), j < i →
          pairKeysAgree (L.features.get ⟨j, hj₁⟩) (M.features.get ⟨j, hj₂⟩) = true)
      (hmis : pairKeysAgree (L.features.get ⟨i, h₁⟩) (M.features.get ⟨i, h₂⟩) = false),
      ∃ Lf, checkLayers tile x y z mlt mvt count (pre ++ name :: post) =
          .error (.exit 1 Lf) ∧
        ("Validation failed for " ++ tile ++ " " ++ toString i) ∈ Lf ∧
        jsonList (sortedKeys (L.features.get ⟨i, h₁⟩).properties) ∈ Lf ∧
        jsonList (spliceOutId (sortedKeys (M.features.get ⟨i, h₂⟩).properties)) ∈ Lf := by
  intro pre
  induction pre with
  | nil =>
      intro name post count L M i hpre hL hM h₁ h₂ hprev hmis
      obtain ⟨Lf, hLf, hm1, hm2, hm3⟩ :=
        checkFeatures_mismatch tile x y z i L.features M.features 0 h₁ h₂ hprev hmis
      refine ⟨Lf, ?_, by simpa using hm1, hm2, hm3⟩
      rw [List.nil_append]
      simp only [checkLayers, hL, hM, Option.map_some', hLf]
  | cons n pre ih =>
      intro name post count L M i hpre hL hM h₁ h₂ hprev hmis
      obtain ⟨Ln, Mn, hLn, hMn, hlen, hag⟩ := hpre n (List.mem_cons_self n pre)
      obtain ⟨ls, hls⟩ := checkFeatures_ok tile x y z Ln.features Mn.features 0 hlen hag
      obtain ⟨Lf, hLf, hm1, hm2, hm3⟩ := ih name post (count + 1) L M i
        (fun m hm => hpre m (List.mem_cons_of_mem n hm)) hL hM h₁ h₂ hprev hmis
      refine ⟨ls ++ Lf, ?_, List.mem_append_right _ hm1, List.mem_append_right _ hm2,
        List.mem_append_right _ hm3⟩
      rw [List.cons_append]
      simp only [checkLayers, hLn, hMn, Option.map_some', hls, hLf]

/-- C4 (amended): when the first key-set divergence over the iterated
layers is the indexed pair `i` of layer `name`, validation exits with code
1, its printed lines containing a diagnostic naming the tile and the
feature index (the layer name is not part of the diagnostic) together with
both serialized key-set strings, and the benchmark phase is never
reached. -/
theorem key_set_mismatch_aborts (input : VInput) (pre : List String) (name : String)
    (post : List String) (L : MltLayer) (M : MvtLayer) (i : Nat)
    (hsplit : validateLayerNames input.decoded = pre ++ name :: post)
    (hpre : ∀ n ∈ pre, ∃ Ln Mn, List.lookup n input.decoded.layers = some Ln ∧
        List.lookup n input.mvtDecoded.layers = some Mn ∧
        Ln.features.length ≤ Mn.features.length ∧
        ∀ j (h₁ : j < Ln.features.length) (h₂ : j < Mn.features.length),
          pairKeysAgree (Ln.features.get ⟨j, h₁⟩) (Mn.features.get ⟨j, h₂⟩) = true)
    (hL : List.lookup name input.decoded.layers = some L)
    (hM : List.lookup name input.mvtDecoded.layers = some M)
    (h₁ : i < L.features.length) (h₂ : i < M.features.length)
    (hprev : ∀ j (hj₁ : j < L.features.length) (hj₂ : j < M.features.length), j < i →
        pairKeysAgree (L.features.get ⟨j, hj₁⟩) (M.features.get ⟨j, hj₂⟩) = true)
    (hmis : pairKeysAgree (L.features.get ⟨i, h₁⟩) (M.features.get ⟨i, h₂⟩) = false) :
    (validate input).outcome = .exited 1 ∧
    ("Validation failed for " ++ input.tile ++ " " ++ toString i) ∈ (validate input).lines ∧
    jsonList (sortedKeys (L.features.get ⟨i, h₁⟩).properties) ∈ (validate input).lines ∧
    jsonList (spliceOutId (sortedKeys (M.features.get ⟨i, h₂⟩).properties)) ∈
      (validate input).lines ∧
    (runSuites true [input]).benchmarksReached = false := by
  obtain ⟨Lf, hLf, hm1, hm2, hm3⟩ := checkLayers_mismatch input.tile input.x input.y input.z
    input.decoded.layers input.mvtDecoded.layers pre name post 0 L M i hpre hL hM h₁ h₂
    hprev hmis
  have hv : validate input = ⟨Lf, .exited 1⟩ := by
    simp only [validate]
    rw [hsplit, hLf]
  have hb : (runSuites true [input]).benchmarksReached = false := by
    show (runSuitesValidation [input] []).benchmarksReached = false
    simp only [runSuitesValidation, hv]
  exact ⟨by rw [hv], by rw [hv]; exact hm1, by rw [hv]; exact hm2, by rw [hv]; exact hm3, hb⟩

/-- Witness for C4 (amended): the concrete key-mismatch fixture exits with
code 1, prints the tile-and-index diagnostic, and never reaches the
benchmark phase. -/
theorem key_set_mismatch_aborts_witness :
    (validate keyMismatchInput).outcome = .exited 1 ∧
    ("Validation failed for " ++ "bing/4-8-5" ++ " " ++ toString 0) ∈
      (validate keyMismatchInput).lines ∧
    (runSuites true [keyMismatchInput]).benchmarksReached = false := by
  obtain ⟨h1, h2, _, _, h5⟩ := key_set_mismatch_aborts keyMismatchInput [] "building" []
    keyMismatchMltLayer keyMismatchMvtLayer 0 (by decide) (by simp) rfl rfl (by decide)
    (by decide) (fun j _ _ hj => absurd hj (Nat.not_lt_zero j)) (by decide)
  exact ⟨h1, h2, h5⟩

/-- The feature loop only inspects the MVT features at indices below the
MLT feature count: two MVT feature lists agreeing on that prefix give the
same result. -/
theorem checkFeatures_take_congr (tile : String) (x y z : Int) :
    ∀ (fs : List Feature) (gs₁ gs₂ : List MvtFeature) (i : Nat),
      gs₁.take fs.length = gs₂.take fs.length →
      checkFeatures tile x y z i fs (some gs₁) = checkFeatures tile x y z i fs (some gs₂) := by
  intro fs
  induction fs with
  | nil => intro gs₁ gs₂ i _; rfl
  | cons f fs ih =>
      intro gs₁ gs₂ i h
      cases gs₁ with
      | nil =>
          cases gs₂ with
          | nil => rfl
          | cons g₂ gs₂ => simp [List.length_cons, List.take_succ_cons] at h
      | cons g₁ gs₁ =>
          cases gs₂ with
          | nil => simp [List.length_cons, List.take_succ_cons] at h
          | cons g₂ gs₂ =>
              simp only [List.length_cons, List.take_succ_cons, List.cons.injEq] at h
              obtain ⟨hg, ht⟩ := h
              subst hg
              simp only [checkFeatures]
              rw [ih gs₁ gs₂ (i + 1) ht]

/-- The layer loop only inspects the MVT layers through name lookup and,
within each looked-up layer, only the feature prefix of the MLT length. -/
theorem checkLayers_take_congr (tile : String) (x y z : Int)
    (mlt : List (String × MltLayer)) (mvt₁ mvt₂ : List (String × MvtLayer))
    (hm : ∀ name L, List.lookup name mlt = some L →
        (List.lookup name mvt₁ = none ∧ List.lookup name mvt₂ = none) ∨
        (∃ M₁ M₂, List.lookup name mvt₁ = some M₁ ∧ List.lookup name mvt₂ = some M₂ ∧
          M₁.features.take L.features.length = M₂.features.take L.features.length)) :
    ∀ (names : List String) (count : Nat),
      checkLayers tile x y z mlt mvt₁ count names =
        checkLayers tile x y z mlt mvt₂ count names := by
  intro names
  induction names with
  | nil => intro count; rfl
  | cons name rest ih =>
      intro count
      simp only [checkLayers]
      cases hL : List.lookup name mlt with
      | none => rfl
      | some layer =>
          rcases hm name layer hL with ⟨hn₁, hn₂⟩ | ⟨M₁, M₂, hs₁, hs₂, hTake⟩
          · rw [hn₁, hn₂]
            simp only [ih]
          · rw [hs₁, hs₂]
            simp only [Option.map_some']
            rw [checkFeatures_take_congr tile x y z layer.features M₁.features M₂.features 0
              hTake]
            simp only [ih]

/-- C10: `validate` compares features only at indices below the MLT layer,
its feature count; MVT features beyond that count are never examined, so
two inputs whose MVT layers agree on those prefixes (and on which names are
present) validate identically. -/
theorem extra_mvt_features_never_examined (tile : String) (x y z : Int)
    (decoded : MltTile) (mvt₁ mvt₂ : MvtTile)
    (hm : ∀ name L, List.lookup name decoded.layers = some L →
        (List.lookup name mvt₁.layers = none ∧ List.lookup name mvt₂.layers = none) ∨
        (∃ M₁ M₂, List.lookup name mvt₁.layers = some M₁ ∧
          List.lookup name mvt₂.layers = some M₂ ∧
          M₁.features.take L.features.length = M₂.features.take L.features.length)) :
    validate ⟨tile, x, y, z, decoded, mvt₁⟩ = validate ⟨tile, x, y, z, decoded, mvt₂⟩ := by
  simp only [validate]
  rw [checkLayers_take_congr tile x y z decoded.layers mvt₁.layers mvt₂.layers hm]

/-- Witness for C10: a tile whose MVT layer has strictly more features than
the MLT layer validates exactly like its truncation, and it passes. -/
theorem extra_mvt_features_never_examined_witness :
    validate longMvtInput = validate shortMvtInput ∧
    validate longMvtInput = ⟨[], .resolved⟩ ∧
    agreeingMltLayer.features.length < longMvtLayer.features.length := by
  refine ⟨extra_mvt_features_never_examined "t" 0 0 0 ⟨[("L", agreeingMltLayer)]⟩
      ⟨[("L", longMvtLayer)]⟩ ⟨[("L", ⟨[matchingMvtFeature]⟩)]⟩ ?_, by decide, by decide⟩
  intro name L h
  by_cases hn : name = "L"
  · subst hn
    have hL : L = agreeingMltLayer := by
      simp [List.lookup] at h
      exact h.symm
    subst hL
    exact Or.inr ⟨longMvtLayer, ⟨[matchingMvtFeature]⟩, rfl, rfl, rfl⟩
  · exfalso
    have hn2 : (name == "L") = false := beq_eq_false_iff_ne.mpr hn
    simp [List.lookup, hn2] at h
